import Mathlib

/-!
Verification of `amp-and-grafana` (an AWS CDK stack, `src/bin/index.ts`,
class `AmpAndGrafanaStack`) against its natural-language specification.

The repository is a one-shot declarative description of cloud resources:
a VPC, an EKS cluster with one managed node group, an Amazon Managed
Prometheus (AMP) workspace and scraper, Kubernetes RBAC manifests plus an
aws-auth identity mapping for the scraper role, and a Grafana workspace
with its execution role.  The embedding below mirrors, construct by
construct, the parameters the source passes to each resource constructor,
and the order in which the constructor of `AmpAndGrafanaStack` declares
them.  Strings manipulated by the one piece of local logic (the ARN
path-splitting transformation) are modelled by their character lists.
-/

namespace AmpAndGrafana

/-! ## The ARN path-splitting transformation

Source (`createPrometheusScraperRoleBinding`, lines 176-179):

    const splitArn = cdk.Fn.split('/', this.prometheusScraper.attrRoleArn)
    const suffix = cdk.Fn.select(3, splitArn);
    const prefix = cdk.Fn.select(0, splitArn);
    const modifiedArn = `${prefix}/${suffix}`;

`Fn.split` splits a string into the list of substrings delimited by the
separator; `Fn.select` picks the element at an index.  A select past the
end of the list yields no element; the template literal of the source
coerces that absent value to the text `undefined` (the JavaScript
stringification of an out-of-range array access), so the local computation
never signals an error.  Strings are modelled as `List Char`.
-/

/-- Splits a character list on a delimiter; mirrors `cdk.Fn.split('/', ...)`.
Adjacent delimiters produce empty segments, and the result is never empty. -/
def fnSplit (d : Char) : List Char → List (List Char)
  | [] => [[]]
  | c :: cs =>
    match fnSplit d cs with
    | [] => [[]]
    | seg :: segs => if c = d then [] :: seg :: segs else (c :: seg) :: segs

/-- Selects the element at `i`; mirrors `cdk.Fn.select(i, xs)`.  Returns
`none` when the index is past the end of the list. -/
def fnSelect (i : Nat) (xs : List (List Char)) : Option (List Char) := xs.get? i

/-- The JavaScript stringification of the absent value produced by an
out-of-range array access, as a template literal renders it. -/
def undefinedText : List Char := ['u', 'n', 'd', 'e', 'f', 'i', 'n', 'e', 'd']

/-- The ARN transformation of `createPrometheusScraperRoleBinding`
(lines 176-179): split the scraper role ARN on `/`, select segment 3 as
the suffix and segment 0 as the service prefix, and recombine them with a
single `/`.  A failed select is coerced to the text `undefined`, exactly
as the template literal of the source would render it. -/
def modifiedArn (arn : List Char) : List Char :=
  let splitArn := fnSplit '/' arn
  let suffix := (fnSelect 3 splitArn).getD undefinedText
  let pre := (fnSelect 0 splitArn).getD undefinedText
  pre ++ '/' :: suffix

theorem fnSplit_ne_nil (d : Char) (s : List Char) : fnSplit d s ≠ [] := by
  induction s with
  | nil => simp [fnSplit]
  | cons c cs ih =>
    rw [fnSplit]
    cases hs : fnSplit d cs with
    | nil => simp
    | cons seg segs => by_cases hc : c = d <;> simp [hc]

theorem fnSplit_no_delim (d : Char) (s : List Char) (h : d ∉ s) :
    fnSplit d s = [s] := by
  induction s with
  | nil => rfl
  | cons c cs ih =>
    rw [fnSplit]
    have hcd : ¬ c = d := fun hcd => h (hcd ▸ List.mem_cons_self c cs)
    rw [ih (fun hm => h (List.mem_cons_of_mem c hm))]
    simp [hcd]

theorem fnSplit_delim_append (d : Char) (s t : List Char) (h : d ∉ s) :
    fnSplit d (s ++ d :: t) = s :: fnSplit d t := by
  induction s with
  | nil =>
    rw [List.nil_append, fnSplit]
    cases ht : fnSplit d t with
    | nil => exact absurd ht (fnSplit_ne_nil d t)
    | cons seg segs => simp
  | cons c cs ih =>
    have hcd : ¬ c = d := fun hcd => h (hcd ▸ List.mem_cons_self c cs)
    rw [List.cons_append, fnSplit,
      ih (fun hm => h (List.mem_cons_of_mem c hm))]
    simp [hcd]

/-- Claim C2: given an input of the shape `prefix/aa/bb/cc` (four
`/`-delimited segments), the ARN transformation splits the input on `/`
and recombines the service prefix with the final path segment, yielding
`prefix/cc`. -/
theorem modifiedArn_four_segments (p a b c : List Char)
    (hp : '/' ∉ p) (ha : '/' ∉ a) (hb : '/' ∉ b) (hc : '/' ∉ c) :
    modifiedArn (p ++ '/' :: (a ++ '/' :: (b ++ '/' :: c))) = p ++ '/' :: c := by
  have hsplit : fnSplit '/' (p ++ '/' :: (a ++ '/' :: (b ++ '/' :: c)))
      = [p, a, b, c] := by
    rw [fnSplit_delim_append '/' p _ hp, fnSplit_delim_append '/' a _ ha,
      fnSplit_delim_append '/' b _ hb, fnSplit_no_delim '/' c hc]
  simp [modifiedArn, fnSelect, hsplit]

/-- Witness for C2 at the literal example of the specification: the raw
scraper role ARN
`arn:aws:iam::123:role/aws-service-role/aps.amazonaws.com/AWSServiceRoleForAmazonPrometheusScraper_x`
is transformed into
`arn:aws:iam::123:role/AWSServiceRoleForAmazonPrometheusScraper_x`. -/
theorem modifiedArn_four_segments_witness :
    modifiedArn ("arn:aws:iam::123:role".data ++ '/' ::
        ("aws-service-role".data ++ '/' :: ("aps.amazonaws.com".data ++ '/' ::
          "AWSServiceRoleForAmazonPrometheusScraper_x".data)))
      = "arn:aws:iam::123:role".data ++ '/' ::
          "AWSServiceRoleForAmazonPrometheusScraper_x".data :=
  modifiedArn_four_segments _ _ _ _ (by decide) (by decide) (by decide)
    (by decide)

/-- Claim C3: the ARN transformation has no explicit error path.  Even on
an input whose number of `/`-delimited segments is below the expected
shape, the internal select of segment 3 finds no element (`none`), yet the
transformation still produces an output string — the first segment
recombined with the text `undefined` — rather than signaling an error. -/
theorem modifiedArn_no_error_path (arn : List Char)
    (h : (fnSplit '/' arn).length < 4) :
    fnSelect 3 (fnSplit '/' arn) = none ∧
    modifiedArn arn = (fnSplit '/' arn).headD [] ++ '/' :: undefinedText := by
  have h3 : fnSelect 3 (fnSplit '/' arn) = none := by
    unfold fnSelect
    exact List.get?_eq_none.mpr (by omega)
  refine ⟨h3, ?_⟩
  cases hs : fnSplit '/' arn with
  | nil => exact absurd hs (fnSplit_ne_nil '/' arn)
  | cons seg segs =>
    rw [hs] at h3
    simp only [fnSelect, List.get?] at h3
    simp only [modifiedArn, hs, h3, fnSelect, List.get?, Option.getD,
      List.headD]

/-- Witness for C3: an ARN with no `/` at all (one segment) still yields
an output, the malformed reference `arn:aws:iam::123:role/undefined`. -/
theorem modifiedArn_no_error_path_witness :
    fnSelect 3 (fnSplit '/' "arn:aws:iam::123:role".data) = none ∧
    modifiedArn "arn:aws:iam::123:role".data
      = (fnSplit '/' "arn:aws:iam::123:role".data).headD [] ++ '/' ::
          undefinedText :=
  modifiedArn_no_error_path _ (by decide)

/-! ## Data model of the stack resources

Each structure mirrors the fields the source passes to the corresponding
resource constructor.  Provider-assigned attribute values that only exist
at deployment time (resource ARNs) are modelled as opaque token strings,
as the CDK itself represents them at synthesis time. -/

/-- Subnet tiers of `ec2.SubnetType` used by the source. -/
inductive SubnetType
  | PUBLIC
  | PRIVATE_WITH_EGRESS
  | PRIVATE_ISOLATED
deriving DecidableEq

/-- Provider-assigned subnet identifier.  Identifiers are opaque and
distinct per subnet; they are modelled as structured values carrying the
tier and the availability-zone index of the subnet they identify. -/
inductive SubnetId
  | publicSubnet (az : Nat)
  | privateSubnet (az : Nat)
deriving DecidableEq

structure Subnet where
  subnetId : SubnetId
  subnetType : SubnetType
deriving DecidableEq

structure Vpc where
  maxAzs : Nat
  enableDnsHostnames : Bool
  enableDnsSupport : Bool
  subnets : List Subnet
deriving DecidableEq

/-- The `createVPC` method (lines 40-46): an `ec2.Vpc` with `maxAzs`
availability zones, DNS hostnames and DNS support enabled, and the default
subnet configuration — one public and one private-with-egress subnet per
availability zone (spec sections 2.1 and 4.1).  The source fixes
`maxAzs: 3`; the zone count is kept as a parameter so that the subnet
resolution can be settled for every valid zone count. -/
def createVPC (maxAzs : Nat) : Vpc :=
  { maxAzs := maxAzs
    enableDnsHostnames := true
    enableDnsSupport := true
    subnets :=
      ((List.range maxAzs).map fun i =>
        { subnetId := SubnetId.publicSubnet (i + 1)
          subnetType := SubnetType.PUBLIC }) ++
      ((List.range maxAzs).map fun i =>
        { subnetId := SubnetId.privateSubnet (i + 1)
          subnetType := SubnetType.PRIVATE_WITH_EGRESS }) }

/-- The subnet selection `vpc.selectSubnets({ subnetType })` used at
lines 93-95: the subnets of the VPC whose tier matches. -/
def Vpc.selectSubnets (vpc : Vpc) (t : SubnetType) : List Subnet :=
  vpc.subnets.filter fun s => s.subnetType == t

/-- Orchestration versions (`eks.KubernetesVersion`) the source mentions. -/
inductive KubernetesVersion
  | V1_30
deriving DecidableEq

/-- Control-plane log stream types of `eks.ClusterLoggingTypes`. -/
inductive ClusterLoggingTypes
  | API
  | AUDIT
  | AUTHENTICATOR
  | CONTROLLER_MANAGER
  | SCHEDULER
deriving DecidableEq

/-- Endpoint access modes of `eks.EndpointAccess`. -/
inductive EndpointAccess
  | PUBLIC
  | PRIVATE
  | PUBLIC_AND_PRIVATE
deriving DecidableEq

/-- Instance classes of `ec2.InstanceClass` used by the source. -/
inductive InstanceClassKind
  | M5
deriving DecidableEq

/-- Instance sizes of `ec2.InstanceSize` used by the source. -/
inductive InstanceSizeKind
  | LARGE
deriving DecidableEq

/-- An EC2 instance type, as produced by `ec2.InstanceType.of`. -/
structure InstanceTypeSpec where
  instClass : InstanceClassKind
  instSize : InstanceSizeKind
deriving DecidableEq

/-- Mirrors `ec2.InstanceType.of(instanceClass, instanceSize)`. -/
def instanceTypeOf (c : InstanceClassKind) (s : InstanceSizeKind) :
    InstanceTypeSpec :=
  { instClass := c, instSize := s }

/-- A managed node group (`eks.NodegroupOptions`).  `minSize` and
`maxSize` are the scaling bounds the source could have set but leaves
unset (`none`): no autoscaling configuration is declared. -/
structure Nodegroup where
  instanceTypes : List InstanceTypeSpec
  desiredSize : Nat
  minSize : Option Nat := none
  maxSize : Option Nat := none
deriving DecidableEq

/-- The `addNodegroupCapacity("ManagedNodeGroup", ...)` call at
lines 66-69: one m5.large instance type and a desired size of 1, with no
scaling bounds. -/
def addNodegroupCapacity : Nodegroup :=
  { instanceTypes := [instanceTypeOf InstanceClassKind.M5 InstanceSizeKind.LARGE]
    desiredSize := 1 }

structure Cluster where
  vpc : Vpc
  version : KubernetesVersion
  vpcSubnets : List SubnetType
  clusterLogging : List ClusterLoggingTypes
  endpointAccess : EndpointAccess
  nodegroup : Nodegroup
  clusterArn : String
deriving DecidableEq

/-- The `createEKSCluster` method (lines 48-80): an `eks.Cluster` in the
VPC, version 1.30, placed in the private-with-egress subnets, with the
API, authenticator and audit log streams enabled and public-and-private
endpoint access, plus the managed node group.  The cluster ARN is a
deploy-time attribute, modelled as an opaque token. -/
def createEKSCluster (vpc : Vpc) : Cluster :=
  { vpc := vpc
    version := KubernetesVersion.V1_30
    vpcSubnets := [SubnetType.PRIVATE_WITH_EGRESS]
    clusterLogging := [ClusterLoggingTypes.API,
      ClusterLoggingTypes.AUTHENTICATOR, ClusterLoggingTypes.AUDIT]
    endpointAccess := EndpointAccess.PUBLIC_AND_PRIVATE
    nodegroup := addNodegroupCapacity
    clusterArn := "TOKEN.Cluster.Arn" }

structure PrometheusWorkspace where
  aliasName : String
  attrArn : String
deriving DecidableEq

/-- The `createPrometheusWorkspace` method (lines 82-89): an
`aps.CfnWorkspace` with the fixed alias (the source property `alias`,
which is a reserved word here).  Its ARN is a deploy-time attribute,
modelled as an opaque token. -/
def createPrometheusWorkspace : PrometheusWorkspace :=
  { aliasName := "my-prometheus-workspace"
    attrArn := "TOKEN.PrometheusWorkspace.Arn" }

structure AmpConfiguration where
  workspaceArn : String
deriving DecidableEq

structure ScraperDestination where
  ampConfiguration : AmpConfiguration
deriving DecidableEq

structure ScrapeConfiguration where
  configurationBlob : String
deriving DecidableEq

structure EksConfiguration where
  clusterArn : String
  subnetIds : List SubnetId
deriving DecidableEq

structure ScraperSource where
  eksConfiguration : EksConfiguration
deriving DecidableEq

structure CfnScraper where
  destination : ScraperDestination
  scrapeConfiguration : ScrapeConfiguration
  source : ScraperSource
deriving DecidableEq

/-- The `createPromehtheusScraper` method (lines 91-116): an
`aps.CfnScraper` whose destination is the metrics workspace, whose scrape
configuration is the externally supplied blob, and whose source is the
cluster ARN together with the identifiers of the subnets selected from
the VPC by the private-with-egress tier. -/
def createPromehtheusScraper (vpc : Vpc)
    (clusterArn workspaceArn configurationBlob : String) : CfnScraper :=
  let privateSubnets := vpc.selectSubnets SubnetType.PRIVATE_WITH_EGRESS
  { destination := { ampConfiguration := { workspaceArn := workspaceArn } }
    scrapeConfiguration := { configurationBlob := configurationBlob }
    source :=
      { eksConfiguration :=
          { clusterArn := clusterArn
            subnetIds := privateSubnets.map Subnet.subnetId } } }

structure ManifestMetadata where
  name : String
deriving DecidableEq

structure PolicyRule where
  apiGroups : List String := []
  resources : List String := []
  nonResourceURLs : List String := []
  verbs : List String := []
deriving DecidableEq

structure ClusterRole where
  apiVersion : String
  kind : String
  metadata : ManifestMetadata
  rules : List PolicyRule
deriving DecidableEq

structure RoleBindingSubject where
  kind : String
  name : String
  apiGroup : String
deriving DecidableEq

structure RoleRef where
  kind : String
  name : String
  apiGroup : String
deriving DecidableEq

structure ClusterRoleBinding where
  apiVersion : String
  kind : String
  metadata : ManifestMetadata
  subjects : List RoleBindingSubject
  roleRef : RoleRef
deriving DecidableEq

/-- The `clusterRoleManifest` literal of
`createPrometheusScraperRoleBinding` (lines 120-149). -/
def clusterRoleManifest : ClusterRole :=
  { apiVersion := "rbac.authorization.k8s.io/v1"
    kind := "ClusterRole"
    metadata := { name := "aps-collector-role" }
    rules :=
      [ { apiGroups := [""]
          resources := ["nodes", "nodes/proxy", "nodes/metrics", "services",
            "endpoints", "pods", "ingresses", "configmaps"]
          verbs := ["describe", "get", "list", "watch"] },
        { apiGroups := ["extensions", "networking.k8s.io"]
          resources := ["ingresses/status", "ingresses"]
          verbs := ["describe", "get", "list", "watch"] },
        { nonResourceURLs := ["/metrics"]
          verbs := ["get"] } ] }

/-- The `clusterRoleBindingManifest` literal of
`createPrometheusScraperRoleBinding` (lines 155-171). -/
def clusterRoleBindingManifest : ClusterRoleBinding :=
  { apiVersion := "rbac.authorization.k8s.io/v1"
    kind := "ClusterRoleBinding"
    metadata := { name := "aps-collector-user-role-binding" }
    subjects :=
      [ { kind := "User"
          name := "aps-collector-user"
          apiGroup := "rbac.authorization.k8s.io" } ]
    roleRef :=
      { kind := "ClusterRole"
        name := "aps-collector-role"
        apiGroup := "rbac.authorization.k8s.io" } }

/-- A synthesis-time ARN expression: either the deploy-time role-ARN
attribute of the scraper (`this.prometheusScraper.attrRoleArn`) or the
path-splitting transformation applied to such an expression.  This is how
the CDK represents the unresolved `Fn.split`/`Fn.select` combination in
the synthesized template. -/
inductive ArnExpr
  | scraperRoleAttr
  | pathTransform (e : ArnExpr)
deriving DecidableEq

/-- Resolves an ARN expression once the deploy-time value of the scraper
role-ARN attribute is known; the path transformation resolves to
`modifiedArn`. -/
def ArnExpr.resolve (scraperRoleArnValue : List Char) : ArnExpr → List Char
  | ArnExpr.scraperRoleAttr => scraperRoleArnValue
  | ArnExpr.pathTransform e => modifiedArn (e.resolve scraperRoleArnValue)

/-- An entry of the aws-auth identity mapping
(`this.cluster.awsAuth.addRoleMapping`, lines 189-192). -/
structure RoleMapping where
  roleArn : ArnExpr
  username : String
  groups : List String
deriving DecidableEq

/-- The resources declared by `createPrometheusScraperRoleBinding`
(lines 118-193). -/
structure RoleBindingResources where
  clusterRole : ClusterRole
  clusterRoleBinding : ClusterRoleBinding
  roleMapping : RoleMapping
deriving DecidableEq

/-- The `createPrometheusScraperRoleBinding` method (lines 118-193): the
two RBAC manifests applied to the cluster, and the identity-mapping entry
that maps the role imported from the transformed scraper role ARN to the
username `aps-collector-user` with groups `[system:masters]`. -/
def createPrometheusScraperRoleBinding : RoleBindingResources :=
  { clusterRole := clusterRoleManifest
    clusterRoleBinding := clusterRoleBindingManifest
    roleMapping :=
      { roleArn := ArnExpr.pathTransform ArnExpr.scraperRoleAttr
        username := "aps-collector-user"
        groups := ["system:masters"] } }

/-- A principal a role trusts; the source only uses service principals
(`iam.ServicePrincipal`). -/
inductive Principal
  | service (name : String)
deriving DecidableEq

/-- An `iam.Role`: the single principal passed as `assumedBy` and the
names of the attached AWS managed policies. -/
structure Role where
  assumedBy : Principal
  managedPolicies : List String
deriving DecidableEq

/-- The principals permitted by the trust (assume-role) policy the
`iam.Role` constructor synthesizes: exactly the one principal passed as
`assumedBy`. -/
def trustPolicyPrincipals (r : Role) : List Principal := [r.assumedBy]

structure GrafanaCfnWorkspace where
  name : String
  accountAccessType : String
  authenticationProviders : List String
  permissionType : String
  roleArn : String
  pluginAdminEnabled : Bool
deriving DecidableEq

/-- The resources declared by `createGrafanaWorkspace` (lines 195-213). -/
structure GrafanaResources where
  grafanaRole : Role
  grafanaWorkspace : GrafanaCfnWorkspace
deriving DecidableEq

/-- The `createGrafanaWorkspace` method (lines 195-213): an `iam.Role`
assumable by the service principal `grafana.amazonaws.com` with the
`AmazonPrometheusFullAccess` managed policy, and a `grafana.CfnWorkspace`
with the fixed name, account access type, authentication provider,
permission type and plugin-administration flag, referencing the role by
its ARN token. -/
def createGrafanaWorkspace : GrafanaResources :=
  { grafanaRole :=
      { assumedBy := Principal.service "grafana.amazonaws.com"
        managedPolicies := ["AmazonPrometheusFullAccess"] }
    grafanaWorkspace :=
      { name := "my-grafana-workspace"
        accountAccessType := "CURRENT_ACCOUNT"
        authenticationProviders := ["AWS_SSO"]
        permissionType := "SERVICE_MANAGED"
        roleArn := "TOKEN.GrafanaRole.Arn"
        pluginAdminEnabled := true } }

/-- The resource declarations of the stack, named after the construct
each one instantiates. -/
inductive Decl
  | vpcDecl
  | kubectlLayerDecl
  | clusterDecl
  | nodegroupDecl
  | prometheusWorkspaceDecl
  | prometheusScraperDecl
  | clusterRoleManifestDecl
  | clusterRoleBindingManifestDecl
  | awsAuthRoleMappingDecl
  | grafanaRoleDecl
  | grafanaWorkspaceDecl
deriving DecidableEq, BEq

/-- The order in which the constructor of `AmpAndGrafanaStack`
(lines 29-38) and the methods it calls declare the resources: the VPC,
then the cluster (with its kubectl layer and node group), the metrics
workspace, the scraper, the three access bindings, and the Grafana role
and workspace. -/
def declarationOrder : List Decl :=
  [Decl.vpcDecl, Decl.kubectlLayerDecl, Decl.clusterDecl, Decl.nodegroupDecl,
    Decl.prometheusWorkspaceDecl, Decl.prometheusScraperDecl,
    Decl.clusterRoleManifestDecl, Decl.clusterRoleBindingManifestDecl,
    Decl.awsAuthRoleMappingDecl, Decl.grafanaRoleDecl,
    Decl.grafanaWorkspaceDecl]

/-- The stack properties passed from `bin/index.ts`. -/
structure StackProps where
  account : String
  region : String
deriving DecidableEq

/-- The complete stack state after construction. -/
structure Stack where
  props : StackProps
  vpc : Vpc
  cluster : Cluster
  prometheusWorkspace : PrometheusWorkspace
  prometheusScraper : CfnScraper
  roleBinding : RoleBindingResources
  grafana : GrafanaResources
  declarations : List Decl
deriving DecidableEq

/-- The constructor of `AmpAndGrafanaStack` (lines 29-38): builds the
VPC, the cluster, the metrics workspace, the scraper, the role bindings
and the Grafana resources, in that order, from the stack properties and
the externally supplied scrape-configuration blob
(`../config/config-blob`, opaque data consumed verbatim). -/
def buildStack (props : StackProps) (configurationBlob : String) : Stack :=
  let vpc := createVPC 3
  let cluster := createEKSCluster vpc
  let prometheusWorkspace := createPrometheusWorkspace
  let prometheusScraper := createPromehtheusScraper vpc cluster.clusterArn
    prometheusWorkspace.attrArn configurationBlob
  let roleBinding := createPrometheusScraperRoleBinding
  let grafana := createGrafanaWorkspace
  { props := props
    vpc := vpc
    cluster := cluster
    prometheusWorkspace := prometheusWorkspace
    prometheusScraper := prometheusScraper
    roleBinding := roleBinding
    grafana := grafana
    declarations := declarationOrder }

/-- The stack properties `bin/index.ts` passes: the fixed account
identifier and region. -/
def indexProps : StackProps :=
  { account := "114043003553", region := "us-east-1" }

/-- A sample value for the opaque, externally supplied
scrape-configuration blob (its content is not interpreted by the
system). -/
def sampleConfigBlob : String := "scrape_configs: []"

/-! ## Spec-side definitions for the dashboard-role policy claim -/

/-- Modelled from the spec: the names of the AWS managed policies that
are a "managed read-access policy scoped to the metrics service"
(sections 4.7 and 8.6).  For the metrics service (Amazon Managed Service
for Prometheus) the read-scoped managed policy is
`AmazonPrometheusQueryAccess`; `AmazonPrometheusFullAccess` additionally
grants write and administrative actions and is therefore not
read-scoped. -/
def metricsReadScopedPolicies : List String := ["AmazonPrometheusQueryAccess"]

/-- Whether a managed-policy name is one of the read-scoped
metrics-service policies. -/
def isMetricsReadScopedPolicy (p : String) : Bool :=
  metricsReadScopedPolicies.contains p

/-- Modelled from the spec (section 8.6): the claim that the execution
role of the dashboard workspace has exactly one managed policy attached
and that this policy is the metrics-read policy, never a broader one. -/
def specDashboardRoleReadOnlyClaim (r : Role) : Bool :=
  r.managedPolicies.length == 1 &&
    r.managedPolicies.all fun p => isMetricsReadScopedPolicy p

/-! ## Claim theorems -/

/-- Claim C1 (counterexample): at the configuration of `bin/index.ts`,
the managed-policy set of the Grafana execution role is
`[AmazonPrometheusFullAccess]`, and the spec claim that this set is
exactly one read-scoped metrics policy evaluates to false: the attached
policy is the full-access policy, which is broader than read access. -/
theorem grafana_role_policy_read_claim_false :
    (buildStack indexProps sampleConfigBlob).grafana.grafanaRole.managedPolicies
        = ["AmazonPrometheusFullAccess"]
    ∧ specDashboardRoleReadOnlyClaim
        (buildStack indexProps sampleConfigBlob).grafana.grafanaRole = false :=
  ⟨rfl, by decide⟩

/-- Claim C1 (amended): for every synthesis of the stack, the execution
role of the dashboard workspace has exactly one managed policy attached,
the metrics-service full-access policy `AmazonPrometheusFullAccess`,
which is not a read-scoped metrics policy. -/
theorem grafana_role_policies_full_access (props : StackProps) (blob : String) :
    (buildStack props blob).grafana.grafanaRole.managedPolicies
        = ["AmazonPrometheusFullAccess"]
    ∧ ∀ p ∈ (buildStack props blob).grafana.grafanaRole.managedPolicies,
        isMetricsReadScopedPolicy p = false := by
  refine ⟨rfl, ?_⟩
  intro p hp
  have hp1 : p = "AmazonPrometheusFullAccess" := by
    simpa [buildStack, createGrafanaWorkspace] using hp
  subst hp1
  decide

/-- The private-with-egress subnets of the constructed VPC, in closed
form: one per availability zone. -/
theorem createVPC_selectSubnets_private (n : Nat) :
    (createVPC n).selectSubnets SubnetType.PRIVATE_WITH_EGRESS
      = (List.range n).map fun i =>
          { subnetId := SubnetId.privateSubnet (i + 1)
            subnetType := SubnetType.PRIVATE_WITH_EGRESS } := by
  unfold createVPC Vpc.selectSubnets
  rw [List.filter_append, List.filter_map, List.filter_map]
  have h1 : ((fun s : Subnet => s.subnetType == SubnetType.PRIVATE_WITH_EGRESS)
      ∘ fun i =>
        ({ subnetId := SubnetId.publicSubnet (i + 1),
           subnetType := SubnetType.PUBLIC } : Subnet)) = fun _ => false := by
    funext i; rfl
  have h2 : ((fun s : Subnet => s.subnetType == SubnetType.PRIVATE_WITH_EGRESS)
      ∘ fun i =>
        ({ subnetId := SubnetId.privateSubnet (i + 1),
           subnetType := SubnetType.PRIVATE_WITH_EGRESS } : Subnet))
      = fun _ => true := by
    funext i; rfl
  rw [h1, h2]
  simp

/-- Claim C4: for every availability-zone count of at least 1 (and any
cluster ARN, workspace ARN and configuration blob), the subnet-identifier
list passed to the source configuration of the scraper (i) equals the
identifiers of the subnets of the VPC filtered to the private-with-egress
tier, (ii) contains an identifier exactly when some private-with-egress
subnet of the VPC carries it, and (iii) contains the identifier of no
public subnet of the VPC. -/
theorem scraper_subnetIds_exactly_private (n : Nat) (_hn : 1 ≤ n)
    (clusterArn workspaceArn blob : String) :
    ((createPromehtheusScraper (createVPC n) clusterArn workspaceArn
          blob).source.eksConfiguration.subnetIds
        = (((createVPC n).subnets.filter fun s =>
              s.subnetType == SubnetType.PRIVATE_WITH_EGRESS).map
            Subnet.subnetId))
    ∧ (∀ i, i ∈ (createPromehtheusScraper (createVPC n) clusterArn
            workspaceArn blob).source.eksConfiguration.subnetIds ↔
          ∃ s, s ∈ (createVPC n).subnets
            ∧ s.subnetType = SubnetType.PRIVATE_WITH_EGRESS
            ∧ s.subnetId = i)
    ∧ (∀ s, s ∈ (createVPC n).subnets → s.subnetType = SubnetType.PUBLIC →
          s.subnetId ∉ (createPromehtheusScraper (createVPC n) clusterArn
            workspaceArn blob).source.eksConfiguration.subnetIds) := by
  refine ⟨rfl, ?_, ?_⟩
  · intro i
    show i ∈ ((createVPC n).selectSubnets
        SubnetType.PRIVATE_WITH_EGRESS).map Subnet.subnetId ↔ _
    simp only [Vpc.selectSubnets, List.mem_map, List.mem_filter,
      beq_iff_eq]
    constructor
    · rintro ⟨s, ⟨hs, ht⟩, hi⟩
      exact ⟨s, hs, ht, hi⟩
    · rintro ⟨s, hs, ht, hi⟩
      exact ⟨s, ⟨hs, ht⟩, hi⟩
  · intro s hs hpub hmem
    have hid : ∃ j, s.subnetId = SubnetId.publicSubnet (j + 1) := by
      simp only [createVPC, List.mem_append, List.mem_map,
        List.mem_range] at hs
      rcases hs with ⟨j, _, rfl⟩ | ⟨j, _, rfl⟩
      · exact ⟨j, rfl⟩
      · simp at hpub
    rcases hid with ⟨j, hj⟩
    have hmem2 : s.subnetId ∈ ((createVPC n).selectSubnets
        SubnetType.PRIVATE_WITH_EGRESS).map Subnet.subnetId := hmem
    rw [createVPC_selectSubnets_private, List.map_map] at hmem2
    simp only [List.mem_map, List.mem_range, Function.comp] at hmem2
    rcases hmem2 with ⟨k, _, hk⟩
    rw [hj] at hk
    exact SubnetId.noConfusion hk

/-- Witness for C4 at the zone count 3 fixed by the source and the
attribute tokens of the stack. -/
theorem scraper_subnetIds_exactly_private_witness :
    ((createPromehtheusScraper (createVPC 3) "TOKEN.Cluster.Arn"
          "TOKEN.PrometheusWorkspace.Arn"
          sampleConfigBlob).source.eksConfiguration.subnetIds
        = (((createVPC 3).subnets.filter fun s =>
              s.subnetType == SubnetType.PRIVATE_WITH_EGRESS).map
            Subnet.subnetId))
    ∧ (∀ i, i ∈ (createPromehtheusScraper (createVPC 3) "TOKEN.Cluster.Arn"
            "TOKEN.PrometheusWorkspace.Arn"
            sampleConfigBlob).source.eksConfiguration.subnetIds ↔
          ∃ s, s ∈ (createVPC 3).subnets
            ∧ s.subnetType = SubnetType.PRIVATE_WITH_EGRESS
            ∧ s.subnetId = i)
    ∧ (∀ s, s ∈ (createVPC 3).subnets → s.subnetType = SubnetType.PUBLIC →
          s.subnetId ∉ (createPromehtheusScraper (createVPC 3)
            "TOKEN.Cluster.Arn" "TOKEN.PrometheusWorkspace.Arn"
            sampleConfigBlob).source.eksConfiguration.subnetIds) :=
  scraper_subnetIds_exactly_private 3 (by decide) "TOKEN.Cluster.Arn"
    "TOKEN.PrometheusWorkspace.Arn" sampleConfigBlob

/-- Claim C5: for every synthesis of the stack, the node capacity
attached to the cluster has desired size exactly 1 and instance types
exactly the one m5.large type, and declares no scaling bounds (no
autoscaling configuration). -/
theorem nodegroup_fixed_capacity (props : StackProps) (blob : String) :
    (buildStack props blob).cluster.nodegroup.desiredSize = 1
    ∧ (buildStack props blob).cluster.nodegroup.instanceTypes
        = [instanceTypeOf InstanceClassKind.M5 InstanceSizeKind.LARGE]
    ∧ (buildStack props blob).cluster.nodegroup.minSize = none
    ∧ (buildStack props blob).cluster.nodegroup.maxSize = none :=
  ⟨rfl, rfl, rfl, rfl⟩

/-- Claim C6: construction of the stack is deterministic — two runs on
the same input configuration (stack properties and scrape-configuration
blob) produce identical resource definitions. -/
theorem buildStack_deterministic (p1 p2 : StackProps) (b1 b2 : String)
    (hp : p1 = p2) (hb : b1 = b2) : buildStack p1 b1 = buildStack p2 b2 := by
  rw [hp, hb]

/-- Witness for C6 at the configuration of `bin/index.ts`. -/
theorem buildStack_deterministic_witness :
    buildStack indexProps sampleConfigBlob
      = buildStack indexProps sampleConfigBlob :=
  buildStack_deterministic indexProps indexProps sampleConfigBlob
    sampleConfigBlob rfl rfl

/-- Claim C7: in the declaration order of the stack, each of the three
access bindings — the cluster role manifest, the cluster role binding
manifest and the aws-auth identity-mapping entry — is declared strictly
after both the cluster and the scraper; moreover the identity-mapping
entry references the deploy-time role-ARN attribute of the scraper
(through the path transformation), so the provisioning engine cannot
realize it before the scraper exists. -/
theorem access_bindings_declared_after_cluster_and_scraper
    (props : StackProps) (blob : String) :
    ((buildStack props blob).declarations.indexOf Decl.clusterDecl
        < (buildStack props blob).declarations.indexOf
            Decl.clusterRoleManifestDecl
      ∧ (buildStack props blob).declarations.indexOf
            Decl.prometheusScraperDecl
        < (buildStack props blob).declarations.indexOf
            Decl.clusterRoleManifestDecl)
    ∧ ((buildStack props blob).declarations.indexOf Decl.clusterDecl
        < (buildStack props blob).declarations.indexOf
            Decl.clusterRoleBindingManifestDecl
      ∧ (buildStack props blob).declarations.indexOf
            Decl.prometheusScraperDecl
        < (buildStack props blob).declarations.indexOf
            Decl.clusterRoleBindingManifestDecl)
    ∧ ((buildStack props blob).declarations.indexOf Decl.clusterDecl
        < (buildStack props blob).declarations.indexOf
            Decl.awsAuthRoleMappingDecl
      ∧ (buildStack props blob).declarations.indexOf
            Decl.prometheusScraperDecl
        < (buildStack props blob).declarations.indexOf
            Decl.awsAuthRoleMappingDecl)
    ∧ (buildStack props blob).roleBinding.roleMapping.roleArn
        = ArnExpr.pathTransform ArnExpr.scraperRoleAttr := by
  have hc1 : declarationOrder.indexOf Decl.clusterDecl
      < declarationOrder.indexOf Decl.clusterRoleManifestDecl := by decide
  have hs1 : declarationOrder.indexOf Decl.prometheusScraperDecl
      < declarationOrder.indexOf Decl.clusterRoleManifestDecl := by decide
  have hc2 : declarationOrder.indexOf Decl.clusterDecl
      < declarationOrder.indexOf Decl.clusterRoleBindingManifestDecl := by
    decide
  have hs2 : declarationOrder.indexOf Decl.prometheusScraperDecl
      < declarationOrder.indexOf Decl.clusterRoleBindingManifestDecl := by
    decide
  have hc3 : declarationOrder.indexOf Decl.clusterDecl
      < declarationOrder.indexOf Decl.awsAuthRoleMappingDecl := by decide
  have hs3 : declarationOrder.indexOf Decl.prometheusScraperDecl
      < declarationOrder.indexOf Decl.awsAuthRoleMappingDecl := by decide
  exact ⟨⟨hc1, hs1⟩, ⟨hc2, hs2⟩, ⟨hc3, hs3⟩, rfl⟩

/-- Claim C8: for every synthesis of the stack, the cluster is placed in
the private-with-egress subnet tier only, has exactly the API,
authenticator and audit log streams enabled, and has its endpoint access
mode set to public-and-private. -/
theorem cluster_config_fixed (props : StackProps) (blob : String) :
    (buildStack props blob).cluster.vpcSubnets
        = [SubnetType.PRIVATE_WITH_EGRESS]
    ∧ (buildStack props blob).cluster.clusterLogging
        = [ClusterLoggingTypes.API, ClusterLoggingTypes.AUTHENTICATOR,
            ClusterLoggingTypes.AUDIT]
    ∧ (buildStack props blob).cluster.endpointAccess
        = EndpointAccess.PUBLIC_AND_PRIVATE :=
  ⟨rfl, rfl, rfl⟩

/-- Claim C9: for every synthesis of the stack, the identity-mapping
entry for the imported scraper role maps it to the username
`aps-collector-user` with group membership exactly `[system:masters]`
(the cluster-admin group), while the cluster role binding binds the
read-only role `aps-collector-role` to that same username — so the
in-cluster access of the scraper identity is not limited to that
read-only role. -/
theorem scraper_identity_mapping_masters (props : StackProps) (blob : String) :
    (buildStack props blob).roleBinding.roleMapping.username
        = "aps-collector-user"
    ∧ (buildStack props blob).roleBinding.roleMapping.groups
        = ["system:masters"]
    ∧ (buildStack props blob).roleBinding.clusterRoleBinding.subjects
        = [{ kind := "User", name := "aps-collector-user",
             apiGroup := "rbac.authorization.k8s.io" }]
    ∧ (buildStack props blob).roleBinding.clusterRoleBinding.roleRef.name
        = "aps-collector-role"
    ∧ "system:masters" ∈ (buildStack props blob).roleBinding.roleMapping.groups :=
  ⟨rfl, rfl, rfl, rfl, List.mem_singleton.mpr rfl⟩

/-- Claim C10: for every synthesis of the stack, the trust policy of the
Grafana execution role permits assumption by exactly one principal, the
service principal `grafana.amazonaws.com`. -/
theorem grafana_role_trust_principal (props : StackProps) (blob : String) :
    trustPolicyPrincipals (buildStack props blob).grafana.grafanaRole
        = [Principal.service "grafana.amazonaws.com"]
    ∧ ∀ q ∈ trustPolicyPrincipals (buildStack props blob).grafana.grafanaRole,
        q = Principal.service "grafana.amazonaws.com" := by
  refine ⟨rfl, ?_⟩
  intro q hq
  simpa [trustPolicyPrincipals, buildStack, createGrafanaWorkspace] using hq

end AmpAndGrafana
